import Mathlib

/-!
Shallow embedding of the async-resource core of `react-control-flow`
(`src/models/Resource.ts` and the `useAsyncState` hook), together with
theorems checking the specification's claims about it.

JavaScript values are modelled by an inductive `JSVal` that keeps the
distinctions the source relies on: `undefined` vs `null` vs falsy values
vs truthy values.  Promises are modelled by allocation indices (`Nat`):
two promises are the same object exactly when their indices coincide.
The promise registry (`ResourceStorage`, not part of the sources under
`src/`, modelled from the spec) together with the fresh-promise allocator
and a log of performed settlements forms a `World` value that is threaded
explicitly through the functions that mutate it in the source.
-/

/-- JavaScript runtime values, as far as `Resource.ts` distinguishes them.
`nullishError c` stands for a `NullishError` object with `cause = c`. -/
inductive JSVal where
  | undef
  | null
  | bool (b : Bool)
  | num (n : Int)
  | str (s : String)
  | obj (id : Nat)
  | nullishError (cause : JSVal)
deriving DecidableEq, Repr

/-- JavaScript truthiness of a `JSVal`. -/
def truthy : JSVal → Bool
  | .undef => false
  | .null => false
  | .bool b => b
  | .num n => n != 0
  | .str s => s != ""
  | .obj _ => true
  | .nullishError _ => true

/-- JavaScript loose inequality to null: `x != null` holds unless `x` is
`undefined` or `null`. -/
def nonNullish (v : JSVal) : Bool :=
  v != JSVal.undef && v != JSVal.null

/-- The five resource states of `Resource.ts`. -/
inductive ResourceState where
  | unresolved
  | pending
  | ready
  | refreshing
  | errored
deriving DecidableEq, Repr

/-- The `(data, loading, error)` triple of `ResourceLike<T>`. -/
structure ResourceLike where
  data : JSVal
  loading : Bool
  error : JSVal
deriving DecidableEq, Repr

/-- Transcription of `getResourceStateByData` from `src/models/Resource.ts`:
the guards are, in order, `i.data !== undefined && i.loading`, `i.loading`,
`i.error !== undefined` and the truthiness test `i.data`. -/
def getResourceStateByData (i : ResourceLike) : ResourceState :=
  if i.data ≠ JSVal.undef ∧ i.loading = true then .refreshing
  else if i.loading = true then .pending
  else if i.error ≠ JSVal.undef then .errored
  else if truthy i.data then .ready
  else .unresolved

/-- How a promise was settled, and with which value. -/
inductive Settlement where
  | resolved (v : JSVal)
  | rejected (v : JSVal)
deriving DecidableEq, Repr

/-- The mutable world: the fresh-promise allocator, the ids currently held
by the promise registry, and the log of settlements performed through the
registry controls.  The registry itself is modelled from the spec (§4.3):
`ResourceStorage` is not among the sources under `src/`; per the spec it is
a map from a promise's identity to its `resolve`/`reject` controls, with
tolerant `get`/`delete`.  Holding an id in `registry` stands for holding
live controls for that promise. -/
structure World where
  nextId : Nat
  registry : List Nat
  settled : List (Nat × Settlement)
deriving DecidableEq, Repr

/-- A resource snapshot: the fields of `Resource<T>`.  `promise` is `none`
while the field is still unset during construction (`res.promise` is
`undefined` until assigned in the source). -/
structure Resource where
  data : JSVal
  loading : Bool
  error : JSVal
  latest : JSVal
  state : ResourceState
  promise : Option Nat
deriving DecidableEq, Repr

/-- View a `Resource` as the `ResourceLike` triple fed to the classifier. -/
def Resource.toLike (r : Resource) : ResourceLike :=
  ⟨r.data, r.loading, r.error⟩

/-- Transcription of `renew` from `src/models/Resource.ts`: if the resource
already holds a promise, drop that promise's registry entry; then allocate a
fresh promise, store it on the resource and register its controls. -/
def renew (w : World) (res : Resource) : World × Resource :=
  let w1 : World :=
    match res.promise with
    | some q => { w with registry := w.registry.erase q }
    | none => w
  let p := w1.nextId
  ({ w1 with nextId := p + 1, registry := w1.registry ++ [p] },
   { res with promise := some p })

/-- Transcription of `resolve` from `src/models/Resource.ts`: if the
resource holds a promise whose controls are registered, call
`controls.resolve(res.data)`, then delete the registry entry. -/
def resolve (w : World) (res : Resource) : World :=
  match res.promise with
  | none => w
  | some p =>
      let w1 : World :=
        if p ∈ w.registry then
          { w with settled := w.settled ++ [(p, Settlement.resolved res.data)] }
        else w
      { w1 with registry := w1.registry.erase p }

/-- Transcription of `reject` from `src/models/Resource.ts`.  Note that the
source calls `controls.reject(res.data)` — the rejection value is the
resource's `data` field, not its `error` field. -/
def reject (w : World) (res : Resource) : World :=
  match res.promise with
  | none => w
  | some p =>
      let w1 : World :=
        if p ∈ w.registry then
          { w with settled := w.settled ++ [(p, Settlement.rejected res.data)] }
        else w
      { w1 with registry := w1.registry.erase p }

/-- Argument of `createResource`: either a `Promise` or a plain value
(`value JSVal.undef` is the omitted argument). -/
inductive CreateArg where
  | promiseOf (p : Nat)
  | value (v : JSVal)
deriving DecidableEq, Repr

/-- Transcription of `createResource` from `src/models/Resource.ts`,
without the suspense accessor closure (modelled separately as
`resourceRead`).  When called with a plain defined value the source sets
`res.promise = Promise.resolve(data)`: a fresh, already-resolved promise
that is never put in the registry. -/
def createResource (w : World) (arg : CreateArg) : World × Resource :=
  let res0 : Resource :=
    { data := .undef, loading := false, error := .undef,
      latest := .undef, state := .unresolved, promise := none }
  let wr :=
    match arg with
    | .promiseOf _ =>
        renew w { res0 with data := .undef, loading := true }
    | .value v =>
        if v ≠ JSVal.undef then
          ({ w with nextId := w.nextId + 1 },
           { res0 with data := v, loading := false, promise := some w.nextId })
        else
          renew w { res0 with data := v, loading := false }
  let res1 : Resource := { wr.2 with error := .undef, latest := .undef }
  (wr.1, { res1 with state := getResourceStateByData res1.toLike })

/-- The patch argument of `nextResource`: `{ loading, data?, error }`,
with an absent `data` represented by `JSVal.undef`. -/
structure Patch where
  loading : Bool
  data : JSVal
  error : JSVal
deriving DecidableEq, Repr

/-- Transcription of `nextResource` from `src/models/Resource.ts`.  The
source starts from `createResource<T>()` (which already allocates and
registers a fresh promise), overwrites the core fields from the patch, sets
`latest` only when the patched `data` is non-nullish, recomputes `state`,
and then branches on whether `loading` changed: renew on entering loading,
reject/resolve on leaving it, and otherwise reuse the old promise. -/
def nextResource (w : World) (target : Resource) (patch : Patch) : World × Resource :=
  let c := createResource w (.value .undef)
  let r1 : Resource :=
    { c.2 with data := patch.data, loading := patch.loading, error := patch.error }
  let r2 : Resource := if nonNullish r1.data then { r1 with latest := r1.data } else r1
  let r3 : Resource := { r2 with state := getResourceStateByData r2.toLike }
  if target.loading ≠ r3.loading then
    if r3.loading then renew c.1 r3
    else if r3.error ≠ JSVal.undef then (reject c.1 r3, r3)
    else (resolve c.1 r3, r3)
  else
    (c.1, { r3 with promise := target.promise })

/-- Possible outcomes of calling a resource's suspense accessor. -/
inductive ReadResult where
  | value (v : JSVal)
  | throwPromise (p : Nat)
  | throwError (e : JSVal)
  | throwIncorrectState
deriving DecidableEq, Repr

/-- Transcription of the accessor closure built inside `createResource`:
while `loading`, throw the promise (or an incorrect-state rejection when
the promise field is not a `Promise`); otherwise throw a truthy `error`;
otherwise return `data`. -/
def resourceRead (res : Resource) : ReadResult :=
  if res.loading then
    match res.promise with
    | some p => .throwPromise p
    | none => .throwIncorrectState
  else if truthy res.error then .throwError res.error
  else .value res.data

/-- Wrapping of nullish rejection reasons.
Modelled from the spec: the `NullishError` substitution lives in the
reducer (`useResourceReducer` / `NullishError.ts`), which is not among the
sources under `src/`; per the spec (§7, NullishRejection) and the repo's
test (`puts a special error type into Error on nullish rejects`), a
`null`/`undefined` reason is replaced by a wrapper error retaining the
original nullish reason as its `cause`. -/
def wrapNullish (e : JSVal) : JSVal :=
  if e = JSVal.undef ∨ e = JSVal.null then JSVal.nullishError e else e

/-- The `AsyncState<T>` shape of the `useAsyncState` hook:
`{ loading, error, result, promise }`. -/
structure AsyncState where
  loading : Bool
  error : JSVal
  result : JSVal
  promise : Option Nat
deriving DecidableEq, Repr

/-- Dispatchable actions of the async-state reducer, as named in the
`useAsyncState` source: `LOADING`, `RESULT`, `ERROR`, `SYNC-RESULT`. -/
inductive AsyncAction where
  | loadingAct (p : Nat)
  | resultAct (d : JSVal)
  | errorAct (e : JSVal)
  | syncResultAct (d : JSVal)
deriving DecidableEq, Repr

/-- Reducer for the hook's model.
Modelled from the spec: `useAsyncStateReducer` is not among the sources
under `src/`; per the spec and README, issuing a call resets the previous
result and error to `null` and marks the state loading with the issued
promise, a settlement clears `loading` and stores the produced
data/error (errors wrapped when nullish), and a synchronous result yields
a settled snapshot with a fake already-resolved promise (modelled as
`none` since nothing registers or awaits it). -/
def asyncStateReducer (s : AsyncState) (a : AsyncAction) : AsyncState :=
  match a with
  | .loadingAct p => { loading := true, error := .null, result := .null, promise := some p }
  | .resultAct d => { loading := false, error := .null, result := d, promise := s.promise }
  | .errorAct e => { loading := false, error := wrapNullish e, result := .null, promise := s.promise }
  | .syncResultAct d => { loading := false, error := .null, result := d, promise := none }

/-- Per-instance session of the `useAsyncState` hook: the reducer model and
the `lastPrms` ref used for the race guard. -/
structure HookState where
  model : AsyncState
  lastPrms : Option Nat
deriving DecidableEq, Repr

/-- Outcome of an issued call's promise. -/
inductive Outcome where
  | success (d : JSVal)
  | failure (e : JSVal)
deriving DecidableEq, Repr

/-- The dispatch `asynHandler` performs for an outcome:
`RESULT` on success, `ERROR` on failure. -/
def actionOf : Outcome → AsyncAction
  | .success d => .resultAct d
  | .failure e => .errorAct e

/-- Transcription of the hook's `set` when called with a `Promise`:
`lastPrms.current = val; dispatch LOADING(val); asynHandler(val)`. -/
def hookSetPromise (st : HookState) (p : Nat) : HookState :=
  { model := asyncStateReducer st.model (.loadingAct p), lastPrms := some p }

/-- Transcription of the hook's `set` when called with a non-promise
value: it only dispatches `SYNC-RESULT` and returns — in particular
`lastPrms` is left untouched. -/
def hookSetSync (st : HookState) (v : JSVal) : HookState :=
  { st with model := asyncStateReducer st.model (.syncResultAct v) }

/-- Transcription of the settlement continuation inside `asynHandler`:
when the awaited promise `p` settles with `out`, the corresponding action
is dispatched only if `lastPrms.current === val` still holds — the guard
compares the promise by reference identity. -/
def hookSettle (st : HookState) (p : Nat) (out : Outcome) : HookState :=
  if st.lastPrms = some p then
    { st with model := asyncStateReducer st.model (actionOf out) }
  else st

lemma nextResource_fields (w : World) (t : Resource) (patch : Patch) :
    (nextResource w t patch).2.data = patch.data ∧
    (nextResource w t patch).2.loading = patch.loading ∧
    (nextResource w t patch).2.error = patch.error ∧
    (nextResource w t patch).2.latest
      = (if nonNullish patch.data then patch.data else JSVal.undef) ∧
    (nextResource w t patch).2.state
      = getResourceStateByData ⟨patch.data, patch.loading, patch.error⟩ := by
  obtain ⟨pl, pd, pe⟩ := patch
  cases tl : t.loading <;> cases pl <;>
    simp [nextResource, createResource, renew, resolve, reject, Resource.toLike, tl] <;>
    split_ifs <;> simp_all

lemma nextResource_same_promise (w : World) (t : Resource) (patch : Patch)
    (h : t.loading = patch.loading) :
    (nextResource w t patch).2.promise = t.promise := by
  obtain ⟨pl, pd, pe⟩ := patch
  simp only at h
  cases pl <;>
    simp [nextResource, createResource, renew, Resource.toLike, h, apply_ite]

lemma nextResource_same_world (w : World) (t : Resource) (patch : Patch)
    (h : t.loading = patch.loading) :
    (nextResource w t patch).1
      = { w with nextId := w.nextId + 1, registry := w.registry ++ [w.nextId] } := by
  obtain ⟨pl, pd, pe⟩ := patch
  simp only at h
  cases pl <;>
    simp [nextResource, createResource, renew, Resource.toLike, h, apply_ite]

lemma nextResource_ft_promise (w : World) (t : Resource) (patch : Patch)
    (ht : t.loading = false) (hp : patch.loading = true) :
    (nextResource w t patch).2.promise = some (w.nextId + 1) := by
  obtain ⟨pl, pd, pe⟩ := patch
  simp only at hp; subst hp
  simp [nextResource, createResource, renew, Resource.toLike, ht] <;>
    split_ifs <;> simp_all

lemma nextResource_ft_settled (w : World) (t : Resource) (patch : Patch)
    (ht : t.loading = false) (hp : patch.loading = true) :
    (nextResource w t patch).1.settled = w.settled := by
  obtain ⟨pl, pd, pe⟩ := patch
  simp only at hp; subst hp
  simp [nextResource, createResource, renew, Resource.toLike, ht] <;>
    split_ifs <;> simp_all

lemma nextResource_tf_promise (w : World) (t : Resource) (patch : Patch)
    (ht : t.loading = true) (hp : patch.loading = false) :
    (nextResource w t patch).2.promise = some w.nextId := by
  obtain ⟨pl, pd, pe⟩ := patch
  simp only at hp; subst hp
  simp [nextResource, createResource, renew, resolve, reject, Resource.toLike, ht] <;>
    split_ifs <;> simp_all

lemma nextResource_tf_settled (w : World) (t : Resource) (patch : Patch)
    (ht : t.loading = true) (hp : patch.loading = false) :
    (nextResource w t patch).1.settled
      = w.settled ++ [(w.nextId,
          if patch.error ≠ JSVal.undef then Settlement.rejected patch.data
          else Settlement.resolved patch.data)] := by
  obtain ⟨pl, pd, pe⟩ := patch
  simp only at hp; subst hp
  simp [nextResource, createResource, renew, resolve, reject, Resource.toLike, ht] <;>
    split_ifs <;> simp_all

lemma erase_append_self (l : List Nat) (n : Nat) (h : n ∉ l) :
    (l ++ [n]).erase n = l := by
  induction l with
  | nil => simp
  | cons a t ih =>
      simp only [List.mem_cons, not_or] at h
      have hne : (a == n) = false := by
        simp only [beq_eq_false_iff_ne, ne_eq]
        exact fun e => h.1 e.symm
      simp [List.erase_cons, hne, ih h.2]

lemma nextResource_tf_registry (w : World) (t : Resource) (patch : Patch)
    (ht : t.loading = true) (hp : patch.loading = false)
    (hfresh : w.nextId ∉ w.registry) :
    (nextResource w t patch).1.registry = w.registry := by
  obtain ⟨pl, pd, pe⟩ := patch
  simp only at hp; subst hp
  simp [nextResource, createResource, renew, resolve, reject, Resource.toLike, ht] <;>
    split_ifs <;> simp_all [erase_append_self]

/-- Session reached from an empty world by creating an empty resource:
the world holds the resource's registered promise (id 0). -/
def freshSession : World × Resource :=
  createResource ⟨0, [], []⟩ (CreateArg.value JSVal.undef)

/-- Session after resolving `freshSession` synchronously with "test1"
(the unchanged-loading path: the promise is reused). -/
def readySession : World × Resource :=
  nextResource freshSession.1 freshSession.2 ⟨false, JSVal.str "test1", JSVal.undef⟩

/-- Session after dispatching a loading patch on `freshSession`: a pending
resource whose registered derived promise has id 2. -/
def pendingSession : World × Resource :=
  nextResource freshSession.1 freshSession.2 ⟨true, JSVal.undef, JSVal.undef⟩

/-- C1: the claim says `getResourceStateByData` follows the §3 table, in
particular that every input with present (non-`undefined`) data, `loading`
false and no error classifies as `ready`.  The code contradicts its own
documentation table here: the value `false` counts as present data for the
`refreshing` row (`i.data !== undefined && i.loading`), but once loading
ends the final guard tests truthiness (`if (i.data)`), so the same present
data classifies as `unresolved` instead of `ready`. -/
theorem c1_falsy_present_data_eval :
    getResourceStateByData ⟨JSVal.bool false, true, JSVal.undef⟩
      = ResourceState.refreshing ∧
    getResourceStateByData ⟨JSVal.bool false, false, JSVal.undef⟩
      = ResourceState.unresolved ∧
    getResourceStateByData ⟨JSVal.num 0, false, JSVal.undef⟩
      = ResourceState.unresolved := by
  decide

/-- C10: precedence of `getResourceStateByData` on inputs outside the §3
table: when `loading` is true the result is `refreshing` for defined data
and `pending` otherwise, even when an error is present; when `loading` is
false a defined error wins over present data; and no input with `loading`
true ever classifies as `errored`. -/
theorem c10_classifier_precedence (i : ResourceLike) :
    (i.loading = true →
      getResourceStateByData i =
        (if i.data ≠ JSVal.undef then ResourceState.refreshing
         else ResourceState.pending)) ∧
    (i.loading = false → i.data ≠ JSVal.undef → i.error ≠ JSVal.undef →
      getResourceStateByData i = ResourceState.errored) ∧
    (i.loading = true → getResourceStateByData i ≠ ResourceState.errored) := by
  obtain ⟨d, l, e⟩ := i
  unfold getResourceStateByData
  cases l <;> simp <;> split_ifs <;> simp_all

/-- C10 witness: the precedence theorem applied at concrete inputs: data
and error both present while loading gives `refreshing`, the same fields
without loading give `errored`, and a loading input with an error does not
classify as `errored`. -/
theorem c10_classifier_precedence_witness :
    getResourceStateByData ⟨JSVal.num 7, true, JSVal.str "boom"⟩
      = ResourceState.refreshing ∧
    getResourceStateByData ⟨JSVal.num 7, false, JSVal.str "boom"⟩
      = ResourceState.errored ∧
    getResourceStateByData ⟨JSVal.undef, true, JSVal.str "boom"⟩
      ≠ ResourceState.errored :=
  ⟨by simpa using
      (c10_classifier_precedence ⟨JSVal.num 7, true, JSVal.str "boom"⟩).1 rfl,
   (c10_classifier_precedence ⟨JSVal.num 7, false, JSVal.str "boom"⟩).2.1
      rfl (by decide) (by decide),
   (c10_classifier_precedence ⟨JSVal.undef, true, JSVal.str "boom"⟩).2.2 rfl⟩

/-- C2 counterexample: the claim says the derived promise reference changes
only on a `loading` false→true transition and that the outgoing snapshot's
promise is the object settled on true→false.  At this concrete true→false
transition the returned resource carries a different promise (id 6, freshly
allocated inside `createResource`), that fresh promise is the one resolved,
and the outgoing promise (id 5) receives no settlement at all and stays
registered. -/
theorem c2_promise_identity_counterexample :
    let t : Resource :=
      { data := JSVal.undef, loading := true, error := JSVal.undef,
        latest := JSVal.undef, state := ResourceState.pending, promise := some 5 }
    let s := nextResource ⟨6, [5], []⟩ t ⟨false, JSVal.str "x", JSVal.undef⟩
    s.2.promise = some 6 ∧
    s.2.promise ≠ t.promise ∧
    s.1.settled = [(6, Settlement.resolved (JSVal.str "x"))] ∧
    (∀ e ∈ s.1.settled, e.1 ≠ 5) ∧
    5 ∈ s.1.registry := by
  decide

/-- C2 (amended): the derived promise reference changes exactly when
`loading` changes in either direction.  On unchanged `loading` the old
reference is reused and no settlement happens; on false→true a fresh
promise is allocated and nothing is settled; on true→false the snapshot's
freshly allocated promise (id `w.nextId`) — not the outgoing snapshot's
promise — is settled exactly once with the patch's data (rejected when an
error is present, resolved otherwise) and then deregistered, while the
outgoing promise stays unsettled and, if it was registered, still
registered: the registry is returned exactly as it was. -/
theorem c2_promise_identity_amended (w : World) (t : Resource) (patch : Patch)
    (h : ∀ q, t.promise = some q → q < w.nextId)
    (hreg : w.nextId ∉ w.registry) :
    ((nextResource w t patch).2.promise ≠ t.promise ↔ t.loading ≠ patch.loading) ∧
    (t.loading = patch.loading → (nextResource w t patch).1.settled = w.settled) ∧
    (t.loading = false → patch.loading = true →
      (nextResource w t patch).1.settled = w.settled) ∧
    (t.loading = true → patch.loading = false →
      (nextResource w t patch).2.promise = some w.nextId ∧
      (nextResource w t patch).1.settled
        = w.settled ++ [(w.nextId,
            if patch.error ≠ JSVal.undef then Settlement.rejected patch.data
            else Settlement.resolved patch.data)] ∧
      (∀ q, t.promise = some q → q ≠ w.nextId) ∧
      (nextResource w t patch).1.registry = w.registry ∧
      w.nextId ∉ (nextResource w t patch).1.registry ∧
      (∀ q, t.promise = some q → q ∈ w.registry →
        q ∈ (nextResource w t patch).1.registry)) := by
  obtain ⟨td, tl, te, tlat, tst, tp⟩ := t
  obtain ⟨pl, pd, pe⟩ := patch
  dsimp only at h ⊢
  cases tl <;> cases pl
  · have hp := nextResource_same_promise w ⟨td, false, te, tlat, tst, tp⟩ ⟨false, pd, pe⟩ rfl
    have hw := nextResource_same_world w ⟨td, false, te, tlat, tst, tp⟩ ⟨false, pd, pe⟩ rfl
    refine ⟨by simp [hp], fun _ => by rw [hw], fun h1 h2 => ?_, fun h1 h2 => ?_⟩
    · cases h2
    · cases h1
  · have hp := nextResource_ft_promise w ⟨td, false, te, tlat, tst, tp⟩ ⟨true, pd, pe⟩ rfl rfl
    have hs := nextResource_ft_settled w ⟨td, false, te, tlat, tst, tp⟩ ⟨true, pd, pe⟩ rfl rfl
    refine ⟨?_, fun hx => ?_, fun _ _ => hs, fun hx _ => ?_⟩
    · refine iff_of_true ?_ (by decide)
      rw [hp]
      rcases tp with _ | q
      · simp
      · have hq := h q rfl
        simp only [ne_eq, Option.some.injEq]
        omega
    · cases hx
    · cases hx
  · have hp := nextResource_tf_promise w ⟨td, true, te, tlat, tst, tp⟩ ⟨false, pd, pe⟩ rfl rfl
    have hs := nextResource_tf_settled w ⟨td, true, te, tlat, tst, tp⟩ ⟨false, pd, pe⟩ rfl rfl
    have hr := nextResource_tf_registry w ⟨td, true, te, tlat, tst, tp⟩ ⟨false, pd, pe⟩
      rfl rfl hreg
    refine ⟨?_, fun hx => absurd hx (by decide), fun hx _ => absurd hx (by decide),
      fun _ _ => ⟨hp, hs, fun q hq => ?_, hr, ?_, fun q hq hmem => ?_⟩⟩
    · refine iff_of_true ?_ (by decide)
      rw [hp]
      rcases tp with _ | q
      · simp
      · have hq := h q rfl
        simp only [ne_eq, Option.some.injEq]
        omega
    · have := h q hq
      omega
    · rw [hr]; exact hreg
    · rw [hr]; exact hmem
  · have hp := nextResource_same_promise w ⟨td, true, te, tlat, tst, tp⟩ ⟨true, pd, pe⟩ rfl
    have hw := nextResource_same_world w ⟨td, true, te, tlat, tst, tp⟩ ⟨true, pd, pe⟩ rfl
    refine ⟨by simp [hp], fun _ => by rw [hw], fun h1 h2 => ?_, fun h1 h2 => ?_⟩
    · cases h1
    · cases h2

/-- C2 witness: the amended promise-identity law applied at a concrete
pending resource and a resolving patch: the fresh promise 6 is settled and
deregistered while the registry keeps exactly the outgoing entry 5. -/
theorem c2_promise_identity_amended_witness :
    ((nextResource ⟨6, [5], []⟩
        { data := JSVal.undef, loading := true, error := JSVal.undef,
          latest := JSVal.undef, state := ResourceState.pending, promise := some 5 }
        ⟨false, JSVal.str "x", JSVal.undef⟩).2.promise = some 6) ∧
    ((nextResource ⟨6, [5], []⟩
        { data := JSVal.undef, loading := true, error := JSVal.undef,
          latest := JSVal.undef, state := ResourceState.pending, promise := some 5 }
        ⟨false, JSVal.str "x", JSVal.undef⟩).1.settled
      = [(6, Settlement.resolved (JSVal.str "x"))]) ∧
    ((nextResource ⟨6, [5], []⟩
        { data := JSVal.undef, loading := true, error := JSVal.undef,
          latest := JSVal.undef, state := ResourceState.pending, promise := some 5 }
        ⟨false, JSVal.str "x", JSVal.undef⟩).1.registry = [5]) := by
  have h := (c2_promise_identity_amended ⟨6, [5], []⟩
    { data := JSVal.undef, loading := true, error := JSVal.undef,
      latest := JSVal.undef, state := ResourceState.pending, promise := some 5 }
    ⟨false, JSVal.str "x", JSVal.undef⟩
    (by intro q hq; cases hq; decide) (by decide)).2.2.2 rfl rfl
  exact ⟨h.1, by simpa using h.2.1, by simpa using h.2.2.2.1⟩

/-- C3: the claim (and the repo's own test `keeps latest data in the
state`) says `latest` is copied forward from the current resource and so
survives a subsequent loading transition.  The code never reads
`target.latest`: after resolving with "test1" and then entering loading
with no data, `latest` is back to `undefined` instead of "test1". -/
theorem c3_latest_dropped_eval :
    readySession.2.latest = JSVal.str "test1" ∧
    (nextResource readySession.1 readySession.2
      ⟨true, JSVal.undef, JSVal.undef⟩).2.latest = JSVal.undef ∧
    (nextResource
      (nextResource readySession.1 readySession.2 ⟨true, JSVal.undef, JSVal.undef⟩).1
      (nextResource readySession.1 readySession.2 ⟨true, JSVal.undef, JSVal.undef⟩).2
      ⟨false, JSVal.undef, JSVal.str "test2"⟩).2.latest = JSVal.undef := by
  decide

/-- C5: the claim (and the repo's own test, which awaits a rejection with
"test2") says that on a loading true→false transition with an error the
currently registered derived promise is rejected with that error and
deregistered.  Evaluating the code at that input: the pending resource's
registered promise (id 2) is never settled and stays registered, while a
freshly allocated promise (id 3) is rejected — and the rejection value is
`res.data` (`undefined`), not the error "test2". -/
theorem c5_reject_eval :
    pendingSession.2.promise = some 2 ∧
    pendingSession.2.loading = true ∧
    2 ∈ pendingSession.1.registry ∧
    (nextResource pendingSession.1 pendingSession.2
      ⟨false, JSVal.undef, JSVal.str "test2"⟩).2.promise = some 3 ∧
    (nextResource pendingSession.1 pendingSession.2
      ⟨false, JSVal.undef, JSVal.str "test2"⟩).1.settled
      = [(3, Settlement.rejected JSVal.undef)] ∧
    (∀ e ∈ (nextResource pendingSession.1 pendingSession.2
      ⟨false, JSVal.undef, JSVal.str "test2"⟩).1.settled, e.1 ≠ 2) ∧
    2 ∈ (nextResource pendingSession.1 pendingSession.2
      ⟨false, JSVal.undef, JSVal.str "test2"⟩).1.registry := by
  decide

/-- C6: a nullish `REJECT` goes through the reducer's `NullishError`
wrapping (modelled from the spec), so the resulting resource is indeed
`errored` with a non-nullish (truthy) error value — but the promise is
still rejected with the bare nullish `res.data` (`undefined`) because
`reject` passes the data field as the rejection reason, contradicting the
claim that no promise is ever rejected with a bare nullish reason. -/
theorem c6_nullish_reject_eval :
    (nextResource pendingSession.1 pendingSession.2
      ⟨false, JSVal.undef, wrapNullish JSVal.null⟩).2.state
      = ResourceState.errored ∧
    (nextResource pendingSession.1 pendingSession.2
      ⟨false, JSVal.undef, wrapNullish JSVal.null⟩).2.error
      = JSVal.nullishError JSVal.null ∧
    truthy (nextResource pendingSession.1 pendingSession.2
      ⟨false, JSVal.undef, wrapNullish JSVal.null⟩).2.error = true ∧
    (nextResource pendingSession.1 pendingSession.2
      ⟨false, JSVal.undef, wrapNullish JSVal.null⟩).1.settled
      = [(3, Settlement.rejected JSVal.undef)] := by
  decide

/-- C7 counterexample: the claim says an idempotent patch performs no
registry mutation, but every `nextResource` call goes through
`createResource()` whose `renew` registers a temporary fresh promise that
the unchanged-loading path never removes: starting from an empty registry,
one entry (id 4) has appeared. -/
theorem c7_registry_churn_counterexample :
    let t : Resource :=
      { data := JSVal.str "x", loading := false, error := JSVal.undef,
        latest := JSVal.str "x", state := ResourceState.ready, promise := some 3 }
    let s := nextResource ⟨4, [], []⟩ t ⟨false, JSVal.str "x", JSVal.undef⟩
    s.1.registry = [4] ∧ s.1.registry ≠ ([] : List Nat) := by
  decide

/-- C7 (amended): dispatching a patch identical to the current snapshot's
`(loading, data, error)` fields yields a resource with the same state and
the very same promise reference, and settles no promise and removes no
registry entry — but it does add one registry entry for the temporary
promise allocated during snapshot construction, which is left orphaned. -/
theorem c7_idempotent_patch_amended (w : World) (t : Resource)
    (hs : t.state = getResourceStateByData t.toLike) :
    (nextResource w t ⟨t.loading, t.data, t.error⟩).2.state = t.state ∧
    (nextResource w t ⟨t.loading, t.data, t.error⟩).2.promise = t.promise ∧
    (nextResource w t ⟨t.loading, t.data, t.error⟩).1.settled = w.settled ∧
    (nextResource w t ⟨t.loading, t.data, t.error⟩).1.registry
      = w.registry ++ [w.nextId] := by
  have hf := (nextResource_fields w t ⟨t.loading, t.data, t.error⟩).2.2.2.2
  have hp := nextResource_same_promise w t ⟨t.loading, t.data, t.error⟩ rfl
  have hw := nextResource_same_world w t ⟨t.loading, t.data, t.error⟩ rfl
  refine ⟨?_, hp, by rw [hw], by rw [hw]⟩
  rw [hf, hs]
  rfl

/-- C7 witness: the amended idempotence law applied at a concrete ready
resource. -/
theorem c7_idempotent_patch_amended_witness :
    (nextResource ⟨4, [], []⟩
        { data := JSVal.str "x", loading := false, error := JSVal.undef,
          latest := JSVal.str "x", state := ResourceState.ready, promise := some 3 }
        ⟨false, JSVal.str "x", JSVal.undef⟩).2.state = ResourceState.ready ∧
    (nextResource ⟨4, [], []⟩
        { data := JSVal.str "x", loading := false, error := JSVal.undef,
          latest := JSVal.str "x", state := ResourceState.ready, promise := some 3 }
        ⟨false, JSVal.str "x", JSVal.undef⟩).2.promise = some 3 := by
  have h := c7_idempotent_patch_amended ⟨4, [], []⟩
    { data := JSVal.str "x", loading := false, error := JSVal.undef,
      latest := JSVal.str "x", state := ResourceState.ready, promise := some 3 }
    (by decide)
  exact ⟨h.1, h.2.1⟩

/-- C9 counterexample: the claim says the accessor throws the error value
whenever the model is in state `errored`.  A resource whose error is
defined but falsy (here `false`) classifies as `errored`, yet the accessor
guard `if (res.error)` tests truthiness, falls through, and returns `data`
(`undefined`) instead of throwing. -/
theorem c9_read_falsy_error_counterexample :
    getResourceStateByData ⟨JSVal.undef, false, JSVal.bool false⟩
      = ResourceState.errored ∧
    resourceRead
      { data := JSVal.undef, loading := false, error := JSVal.bool false,
        latest := JSVal.undef, state := ResourceState.errored, promise := some 0 }
      = ReadResult.value JSVal.undef := by
  decide

/-- C9 (amended): for a resource whose stored state agrees with the
classifier, the accessor throws the in-progress promise in states
`pending` and `refreshing`, throws the error in state `errored` when the
error is truthy, returns `data` in state `errored` when the error is
defined but falsy, and returns `data` in state `ready`. -/
theorem c9_read_accessor_amended (res : Resource)
    (hs : res.state = getResourceStateByData res.toLike) :
    ((res.state = ResourceState.pending ∨ res.state = ResourceState.refreshing) →
      ∀ p, res.promise = some p → resourceRead res = ReadResult.throwPromise p) ∧
    (res.state = ResourceState.errored → truthy res.error = true →
      resourceRead res = ReadResult.throwError res.error) ∧
    (res.state = ResourceState.errored → truthy res.error = false →
      resourceRead res = ReadResult.value res.data) ∧
    (res.state = ResourceState.ready → resourceRead res = ReadResult.value res.data) := by
  obtain ⟨d, l, e, lat, st, pr⟩ := res
  dsimp only [Resource.toLike] at hs ⊢
  subst hs
  cases l
  · refine ⟨fun hx p hp => ?_, fun _ he => ?_, fun _ he => ?_, fun _ => ?_⟩
    · exfalso
      unfold getResourceStateByData at hx
      rcases hx with hx | hx <;> revert hx <;> split_ifs <;> simp_all
    · simp [resourceRead, he]
    · simp [resourceRead, he]
    · have he : truthy e = false := by
        unfold getResourceStateByData at *
        split_ifs at * <;> simp_all [truthy]
      simp [resourceRead, he]
  · refine ⟨fun _ p hp => ?_, fun hx _ => ?_, fun hx _ => ?_, fun hx => ?_⟩
    · simp [resourceRead, hp]
    · exfalso
      unfold getResourceStateByData at hx
      split_ifs at hx <;> simp_all
    · exfalso
      unfold getResourceStateByData at hx
      split_ifs at hx <;> simp_all
    · exfalso
      unfold getResourceStateByData at hx
      split_ifs at hx <;> simp_all

/-- C9 witness: the amended accessor contract applied at a concrete
refreshing resource and at a concrete errored resource with a truthy
error. -/
theorem c9_read_accessor_amended_witness :
    resourceRead
      { data := JSVal.str "stale", loading := true, error := JSVal.undef,
        latest := JSVal.str "stale", state := ResourceState.refreshing,
        promise := some 9 }
      = ReadResult.throwPromise 9 ∧
    resourceRead
      { data := JSVal.undef, loading := false, error := JSVal.str "boom",
        latest := JSVal.undef, state := ResourceState.errored, promise := some 9 }
      = ReadResult.throwError (JSVal.str "boom") := by
  constructor
  · exact (c9_read_accessor_amended
      { data := JSVal.str "stale", loading := true, error := JSVal.undef,
        latest := JSVal.str "stale", state := ResourceState.refreshing,
        promise := some 9 } (by decide)).1 (Or.inr rfl) 9 rfl
  · exact (c9_read_accessor_amended
      { data := JSVal.undef, loading := false, error := JSVal.str "boom",
        latest := JSVal.undef, state := ResourceState.errored,
        promise := some 9 } (by decide)).2.1 rfl (by decide)

/-- C4: last-issued-wins race guard of `useAsyncState`.  After issuing call
C1 (promise `p1`) and then C2 (promise `p2`) on the same instance, the
settlement continuations compare `lastPrms` by identity: whichever order
the two settlements arrive in, C1's outcome is discarded and the final
model is exactly the doubly-issued state with only C2's outcome applied. -/
theorem c4_race_guard (st : HookState) (p1 p2 : Nat) (o1 o2 : Outcome)
    (h : p1 ≠ p2) :
    (hookSettle (hookSettle (hookSetPromise (hookSetPromise st p1) p2) p1 o1) p2 o2).model
      = asyncStateReducer (hookSetPromise (hookSetPromise st p1) p2).model (actionOf o2) ∧
    (hookSettle (hookSettle (hookSetPromise (hookSetPromise st p1) p2) p2 o2) p1 o1).model
      = asyncStateReducer (hookSetPromise (hookSetPromise st p1) p2).model (actionOf o2) := by
  have h2 : p2 ≠ p1 := Ne.symm h
  constructor <;> simp [hookSetPromise, hookSettle, h2]

/-- C4 witness: the race-guard law at a concrete session: call 1 fails with
"e1" after call 2 already succeeded with "d2", and in the other order as
well; both final models carry only call 2's outcome. -/
theorem c4_race_guard_witness :
    (hookSettle (hookSettle (hookSetPromise (hookSetPromise
        ⟨⟨false, JSVal.undef, JSVal.undef, none⟩, none⟩ 1) 2)
        1 (Outcome.failure (JSVal.str "e1"))) 2 (Outcome.success (JSVal.str "d2"))).model
      = asyncStateReducer (hookSetPromise (hookSetPromise
          ⟨⟨false, JSVal.undef, JSVal.undef, none⟩, none⟩ 1) 2).model
          (actionOf (Outcome.success (JSVal.str "d2"))) ∧
    (hookSettle (hookSettle (hookSetPromise (hookSetPromise
        ⟨⟨false, JSVal.undef, JSVal.undef, none⟩, none⟩ 1) 2)
        2 (Outcome.success (JSVal.str "d2"))) 1 (Outcome.failure (JSVal.str "e1"))).model
      = asyncStateReducer (hookSetPromise (hookSetPromise
          ⟨⟨false, JSVal.undef, JSVal.undef, none⟩, none⟩ 1) 2).model
          (actionOf (Outcome.success (JSVal.str "d2"))) :=
  c4_race_guard ⟨⟨false, JSVal.undef, JSVal.undef, none⟩, none⟩ 1 2
    (Outcome.failure (JSVal.str "e1")) (Outcome.success (JSVal.str "d2")) (by decide)

/-- C8 counterexample: the claim says that after `set` with a non-promise
value, an in-flight call's settlement is discarded by the race guard.  In
the source, the sync branch of `set` returns without updating
`lastPrms`, so the in-flight promise (id 1) still matches the guard: its
late success "w" is applied and overwrites the mutated value "v". -/
theorem c8_mutate_not_guarded_counterexample :
    let st2 := hookSetSync (hookSetPromise
      ⟨⟨false, JSVal.undef, JSVal.undef, none⟩, none⟩ 1) (JSVal.str "v")
    st2.model.result = JSVal.str "v" ∧
    st2.lastPrms = some 1 ∧
    (hookSettle st2 1 (Outcome.success (JSVal.str "w"))).model.result
      = JSVal.str "w" := by
  decide

/-- C8 (amended): `set` with a non-promise value transitions the model
directly to a settled snapshot with the synthetic success data, but leaves
`lastPrms` pointing at the previously issued call; that call therefore
still passes the race guard, and when it settles its outcome is applied on
top of (and overwrites) the mutated snapshot. -/
theorem c8_mutate_amended (st : HookState) (p : Nat) (v : JSVal) (out : Outcome)
    (h : st.lastPrms = some p) :
    (hookSetSync st v).model
      = asyncStateReducer st.model (AsyncAction.syncResultAct v) ∧
    (hookSetSync st v).lastPrms = some p ∧
    hookSettle (hookSetSync st v) p out
      = { model := asyncStateReducer
            (asyncStateReducer st.model (AsyncAction.syncResultAct v))
            (actionOf out),
          lastPrms := some p } := by
  refine ⟨rfl, h, ?_⟩
  simp [hookSetSync, hookSettle, h]

/-- C8 witness: the amended mutate law at a concrete in-flight session. -/
theorem c8_mutate_amended_witness :
    (hookSetSync ⟨⟨true, JSVal.null, JSVal.null, some 1⟩, some 1⟩ (JSVal.str "v")).model
      = asyncStateReducer (⟨true, JSVal.null, JSVal.null, some 1⟩ : AsyncState)
          (AsyncAction.syncResultAct (JSVal.str "v")) ∧
    (hookSetSync ⟨⟨true, JSVal.null, JSVal.null, some 1⟩, some 1⟩ (JSVal.str "v")).lastPrms
      = some 1 ∧
    hookSettle (hookSetSync ⟨⟨true, JSVal.null, JSVal.null, some 1⟩, some 1⟩ (JSVal.str "v"))
        1 (Outcome.success (JSVal.str "w"))
      = { model := asyncStateReducer
            (asyncStateReducer (⟨true, JSVal.null, JSVal.null, some 1⟩ : AsyncState)
              (AsyncAction.syncResultAct (JSVal.str "v")))
            (actionOf (Outcome.success (JSVal.str "w"))),
          lastPrms := some 1 } :=
  c8_mutate_amended ⟨⟨true, JSVal.null, JSVal.null, some 1⟩, some 1⟩ 1
    (JSVal.str "v") (Outcome.success (JSVal.str "w")) rfl
